import Mathlib

/-!
Verification development for the school-ecosystem simulator
(src/school_eco_system_simulator.py).

The Python program is embedded shallowly:

* Python floats become exact rationals; the per-year update rules use only
  field arithmetic, comparisons, min and max, so every transition rule is
  translated verbatim over the rationals.  Only the logistic transform of
  the future-hope estimator needs the real exponential, so that one
  function lives over the reals.
* The process-wide random stream is made explicit: a draw stream
  d : Nat -> Rat supplies the normalized draws, where each call of
  random.uniform(-scale, scale) is represented as d k * scale with
  d k ranging over [-1, 1].  A tick that draws noise consumes the head of
  the stream and returns the tail, mirroring the sequential consumption
  of the shared generator; when randomness <= 0 or scale <= 0 the source
  returns 0.0 before drawing, so no draw is consumed.
* Mutation of the SchoolEcosystem dataclass becomes explicit state
  passing; each Python tick method becomes a function
  School -> School (plus the draw stream when the tick draws noise).
  Inside a tick, each Python assignment to a field becomes one scalar
  binding, in source order; a condition or right-hand side evaluated at
  some point of the method body reads the binding that is current at
  that point, so the sequential read/write order of the source is
  preserved exactly, and the tick result is a single record update.
-/

/-- Role literal of an actor, from the Python Role Literal type. -/
inductive Role where
  | teacher
  | admin
  | student
deriving DecidableEq

/-- OpportunityChoice literal from the source. -/
inductive OpportunityChoice where
  | none
  | stay_inside
  | leave_outside
deriving DecidableEq

/-- ChangeAttitude literal from the source. -/
inductive ChangeAttitude where
  | resist
  | neutral
  | support
deriving DecidableEq

/-- Actor dataclass from the source, with the same field defaults. -/
structure Actor where
  name : String
  role : Role
  os_version : String
  adaptability : ℚ
  protected_ : Bool := true
  change_attitude : ChangeAttitude := ChangeAttitude.neutral
  burned_out : Bool := false
  has_left_system : Bool := false
  rebooted_outside : Bool := false
  casualty_of_system : Bool := false
  opportunity_cost : ℚ := 0
  opportunity_choice : OpportunityChoice := OpportunityChoice.none
  future_hope_probability : ℚ := 0
  is_future_hope : Bool := false
deriving DecidableEq

/-- ExternalWorld dataclass: the two tunables, with the source defaults. -/
structure ExternalWorld where
  selection_pressure : ℚ := 0.8
  ai_shift_speed : ℚ := 0.9
deriving DecidableEq

/-- EnvironmentConstraints dataclass with the source defaults. -/
structure EnvironmentConstraints where
  budget_pressure : ℚ := 0.5
  regulation_rigidity : ℚ := 0.5
  demographic_pressure : ℚ := 0.5
deriving DecidableEq

/-- DynamicsCoefficients dataclass with the source defaults. -/
structure DynamicsCoefficients where
  infra_to_burnout : ℚ := 0.1
  dxclarity_to_burnout : ℚ := 0.1
  workload_to_burnout : ℚ := 0.05
  complexity_to_burnout : ℚ := 0.05
  trustlack_to_burnout : ℚ := 0.05
  personalization_to_burnout : ℚ := 0.05
  llm_relief_to_burnout : ℚ := 0.04
  ai_service_relief_to_burnout : ℚ := 0.03
  external_system_to_productivity : ℚ := 0.03
  complexity_to_productivity : ℚ := 0.04
  workload_to_productivity : ℚ := 0.02
  infra_bad_to_productivity : ℚ := 0.02
  fragmentation_to_productivity : ℚ := 0.03
  personalization_to_productivity : ℚ := 0.03
  llm_to_productivity : ℚ := 0.05
  ai_access_to_productivity : ℚ := 0.03
  base_eff_infra_weight : ℚ := 0.4
  base_eff_dxclarity_weight : ℚ := 0.3
  suppression_bonus_to_eff : ℚ := 0.1
  llm_to_efficiency : ℚ := 0.1
  db_to_efficiency : ℚ := 0.05
  portal_to_efficiency : ℚ := 0.05
  personalization_to_efficiency : ℚ := 0.05
deriving DecidableEq

/-- SchoolEcosystem dataclass: the central mutable aggregate, with the
field defaults of the source. -/
structure School where
  name : String
  env : EnvironmentConstraints
  dynamics : DynamicsCoefficients := {}
  actors : List Actor := []
  infrastructure_health : ℚ := 0.4
  dx_clarity : ℚ := 0.1
  burnout_index : ℚ := 0
  student_exit_rate : ℚ := 0
  recruitment_difficulty : ℚ := 0.3
  years_simulated : ℕ := 0
  suppression_level : ℚ := 0.8
  systemic_opportunity_cost : ℚ := 0
  change_seeds_planted : ℕ := 0
  change_seeds_suppressed : ℕ := 0
  external_system_dependency : ℚ := 0
  external_spend : ℚ := 0
  learning_cost_index : ℚ := 0
  system_complexity : ℚ := 0.3
  workload_index : ℚ := 0.5
  productivity_index : ℚ := 0.7
  efficiency_index_true : ℚ := 0.4
  efficiency_index_recognized : ℚ := 0.1
  has_swot : Bool := false
  strategic_consistency : ℚ := 0.2
  change_request_intensity : ℚ := 0.3
  change_rejection_rate : ℚ := 0.6
  rhetorical_change_slogans : ℕ := 0
  educational_asset_index : ℚ := 0.1
  central_repository_level : ℚ := 0
  student_learning_efficiency : ℚ := 0.4
  competitor_gap_index : ℚ := 0.1
  innovation_potential_index : ℚ := 0
  local_llm_infra_level : ℚ := 0
  ai_service_quality_index : ℚ := 0
  ai_accessibility_index : ℚ := 0
  portal_maturity : ℚ := 0.1
  database_foundation : ℚ := 0.1
  process_fragmentation_index : ℚ := 0.7
  pm_capability : ℚ := 0.2
  grand_design_clarity : ℚ := 0.1
  leadership_trust_battery : ℚ := 0.4
  info_transparency : ℚ := 0.3
  task_personalization_index : ℚ := 0.85
  randomness : ℚ := 0.05
deriving DecidableEq

/-- Saturating clamp to the unit interval, the pattern
max(0.0, min(1.0, v)) used throughout the ticks. -/
def clamp01 (x : ℚ) : ℚ := max 0 (min 1 x)

/-- Normalized draw stream standing for the shared random generator. -/
abbrev DrawS := ℕ → ℚ

/-- SchoolEcosystem._noise: uniform(-scale, scale) * randomness, written
as head-draw * scale * randomness; returns 0 without consuming a draw
when randomness <= 0 or scale <= 0, exactly as the source. -/
def noiseQ (s : School) (scale : ℚ) (d : DrawS) : ℚ × DrawS :=
  if s.randomness ≤ 0 ∨ scale ≤ 0 then (0, d)
  else (d 0 * scale * s.randomness, fun n => d (n + 1))

/-- ExternalWorld.required_threshold. -/
def required_threshold (w : ExternalWorld) : ℚ :=
  w.selection_pressure + w.ai_shift_speed * 0.1

/-- ExternalWorld.base_effective_adaptability.  The Python substring
tests tag in actor.os_version are rendered as list-infix tests on the
character data of the strings.  The method reads no ExternalWorld state,
exactly as in the source. -/
def base_effective_adaptability (a : Actor) : ℚ :=
  let b1 := a.adaptability
  let b2 := if List.IsInfix "LegacyOS".data a.os_version.data then b1 - 0.15 else b1
  let b3 :=
    if List.IsInfix "HighAdaptOS".data a.os_version.data
        ∨ List.IsInfix "MasOS".data a.os_version.data
        ∨ List.IsInfix "LLM-aware".data a.os_version.data
    then b2 + 0.15 else b2
  if a.change_attitude = ChangeAttitude.support then b3 + 0.05
  else if a.change_attitude = ChangeAttitude.resist then b3 - 0.05
  else b3

/-- SchoolEcosystem._tick_infrastructure. -/
def tickInfrastructure (s : School) (d : DrawS) : School × DrawS :=
  let nd := noiseQ s 0.02 d
  ({ s with infrastructure_health := clamp01 (s.infrastructure_health + (-0.03) + nd.1) }, nd.2)

/-- SchoolEcosystem._tick_dx_clarity. -/
def tickDxClarity (s : School) (d : DrawS) : School × DrawS :=
  let nd := noiseQ s 0.02 d
  ({ s with dx_clarity := clamp01 (s.dx_clarity + (-0.02) + nd.1) }, nd.2)

/-- SchoolEcosystem._tick_strategy_layer.  Note that the source's final
clamp loop covers only change_request_intensity, change_rejection_rate
and strategic_consistency; burnout_index and systemic_opportunity_cost
are incremented without re-clamping. -/
def tickStrategyLayer (s : School) : School :=
  let c1 := s.has_swot = false ∧ s.suppression_level > 0.6
  let cri1 := if c1 then s.change_request_intensity + 0.03 * s.suppression_level
              else s.change_request_intensity
  let crr1 := if c1 then s.change_rejection_rate + 0.02 * s.suppression_level
              else s.change_rejection_rate
  let sc1 := if c1 then s.strategic_consistency - 0.03 * s.suppression_level
             else s.strategic_consistency
  let slog1 := if c1 then s.rhetorical_change_slogans + 1 else s.rhetorical_change_slogans
  let b1 := if c1 then s.burnout_index + 0.02 * s.suppression_level else s.burnout_index
  let soc1 := if c1 then s.systemic_opportunity_cost + 0.1 * s.suppression_level
              else s.systemic_opportunity_cost
  let c2 := s.has_swot = true ∧ s.suppression_level < 0.4 ∧ s.dx_clarity > 0.5
  let cri2 := if c2 then cri1 - 0.02 else cri1
  let crr2 := if c2 then crr1 - 0.03 else crr1
  let sc2 := if c2 then sc1 + 0.05 else sc1
  { s with
    change_request_intensity := clamp01 cri2,
    change_rejection_rate := clamp01 crr2,
    strategic_consistency := clamp01 sc2,
    rhetorical_change_slogans := slog1,
    burnout_index := b1,
    systemic_opportunity_cost := soc1 }

/-- SchoolEcosystem._tick_portal_and_db. -/
def tickPortalAndDb (s : School) (d : DrawS) : School × DrawS :=
  let c1 := s.portal_maturity < 0.4 ∧ s.database_foundation < 0.4 ∧ s.dx_clarity < 0.3
  let nd := if c1 then noiseQ s 0.02 d else (0, d)
  let frag1 := if c1 then s.process_fragmentation_index + 0.04 + nd.1
               else s.process_fragmentation_index
  let wl1 := if c1 then s.workload_index + 0.02 else s.workload_index
  let cx1 := if c1 then s.system_complexity + 0.03 else s.system_complexity
  let sle1 := if c1 then s.student_learning_efficiency - 0.02
              else s.student_learning_efficiency
  let prod1 := if c1 then s.productivity_index - 0.01 else s.productivity_index
  let tpi1 := if c1 then s.task_personalization_index + 0.03
              else s.task_personalization_index
  let factor := 1 - 0.5 * s.env.regulation_rigidity
  let c2 := (s.suppression_level < 0.4 ∧ s.dx_clarity > 0.5
      ∧ s.infrastructure_health > 0.4) ∧ factor > 0
  let portal1 := if c2 then s.portal_maturity + 0.05 * factor else s.portal_maturity
  let db1 := if c2 then s.database_foundation + 0.05 * factor else s.database_foundation
  let frag2 := if c2 then frag1 - 0.05 * factor else frag1
  let asset1 := if c2 then s.educational_asset_index + 0.03 * factor
                else s.educational_asset_index
  let tpi2 := if c2 then tpi1 - 0.05 * factor else tpi1
  ({ s with
    portal_maturity := clamp01 portal1,
    database_foundation := clamp01 db1,
    process_fragmentation_index := clamp01 frag2,
    student_learning_efficiency := clamp01 sle1,
    productivity_index := clamp01 prod1,
    task_personalization_index := clamp01 tpi2,
    workload_index := clamp01 wl1,
    system_complexity := clamp01 cx1,
    educational_asset_index := clamp01 asset1 }, nd.2)

/-- SchoolEcosystem._tick_pm_and_design. -/
def tickPmAndDesign (s : School) : School :=
  let c1 := s.pm_capability < 0.4 ∧ s.grand_design_clarity < 0.4
      ∧ s.change_request_intensity > 0.4 ∧ s.change_rejection_rate > 0.5
  let b1 := if c1 then s.burnout_index + 0.03 else s.burnout_index
  let prod1 := if c1 then s.productivity_index - 0.02 else s.productivity_index
  let trust1 := if c1 then s.leadership_trust_battery - 0.03 else s.leadership_trust_battery
  let sc1 := if c1 then s.strategic_consistency - 0.02 else s.strategic_consistency
  let c2 := s.pm_capability > 0.6 ∧ s.grand_design_clarity > 0.6
      ∧ s.dx_clarity > 0.5 ∧ s.suppression_level < 0.4
  let b2 := if c2 then b1 - 0.02 else b1
  let prod2 := if c2 then prod1 + 0.03 else prod1
  let trust2 := if c2 then trust1 + 0.05 else trust1
  let sc2 := if c2 then sc1 + 0.03 else sc1
  { s with
    burnout_index := clamp01 b2,
    productivity_index := clamp01 prod2,
    leadership_trust_battery := clamp01 trust2,
    strategic_consistency := clamp01 sc2 }

/-- Predicate picking the high adapters of _tick_change_dynamics:
teacher/admin actors with adaptability >= 0.7. -/
def isHighAdapter (a : Actor) : Bool :=
  (a.role = Role.teacher ∨ a.role = Role.admin) ∧ (0.7 : ℚ) ≤ a.adaptability

/-- SchoolEcosystem._tick_change_dynamics. -/
def tickChangeDynamics (s : School) : School :=
  let seeds := (s.actors.filter isHighAdapter).length
  if seeds = 0 then s
  else
    let sup := s.suppression_level
    let hi := sup > 0.5
    let soc1 := if hi then s.systemic_opportunity_cost + (seeds : ℚ) * 0.4 * sup
                else s.systemic_opportunity_cost
    let b1 := if hi then s.burnout_index + 0.04 * sup
              else s.burnout_index - 0.02 * (1 - sup)
    let dx1 := if hi then s.dx_clarity - 0.02 * sup else s.dx_clarity + 0.08 * (1 - sup)
    let infra1 := if hi then s.infrastructure_health
                  else s.infrastructure_health + 0.04 * (1 - sup)
    let actors1 := if hi then
        s.actors.map (fun a =>
          if a.role = Role.student then
            { a with adaptability := max 0 (a.adaptability - 0.01 * sup) }
          else a)
      else s.actors
    { s with
      change_seeds_planted := s.change_seeds_planted + seeds,
      change_seeds_suppressed := if hi then s.change_seeds_suppressed + seeds
                                 else s.change_seeds_suppressed,
      systemic_opportunity_cost := soc1,
      dx_clarity := clamp01 dx1,
      infrastructure_health := clamp01 infra1,
      burnout_index := clamp01 b1,
      actors := actors1 }

/-- SchoolEcosystem._tick_education_assets. -/
def tickEducationAssets (s : School) : School :=
  let c1 := s.educational_asset_index < 0.5 ∧ s.central_repository_level < 0.3
      ∧ s.dx_clarity < 0.3
  let sle1 := if c1 then s.student_learning_efficiency - 0.03
              else s.student_learning_efficiency
  let cgi1 := if c1 then s.competitor_gap_index + 0.05 else s.competitor_gap_index
  let f := 1 - 0.5 * s.env.budget_pressure
  let c2 := (s.suppression_level < 0.4 ∧ s.dx_clarity > 0.5) ∧ f > 0
  let asset1 := if c2 then s.educational_asset_index + 0.05 * f
                else s.educational_asset_index
  let repo1 := if c2 then s.central_repository_level + 0.05 * f
               else s.central_repository_level
  let sle2 := if c2 then sle1 + 0.04 * f else sle1
  let cgi2 := if c2 then cgi1 - 0.03 * f else cgi1
  let c3 := s.local_llm_infra_level > 0
  let sle3 := if c3 then sle2 + 0.03 * s.local_llm_infra_level else sle2
  let cgi3 := if c3 then cgi2 - 0.02 * s.local_llm_infra_level else cgi2
  { s with
    student_learning_efficiency := clamp01 sle3,
    competitor_gap_index := clamp01 cgi3,
    educational_asset_index := clamp01 asset1,
    central_repository_level := clamp01 repo1 }

/-- SchoolEcosystem._tick_innovation. -/
def tickInnovation (s : School) : School :=
  let ready := s.educational_asset_index ≥ 0.5 ∧ s.central_repository_level ≥ 0.5
      ∧ s.dx_clarity ≥ 0.6 ∧ s.suppression_level < 0.4
      ∧ s.infrastructure_health ≥ 0.5 ∧ s.env.budget_pressure < 0.8
  let ipR := min 1 (s.innovation_potential_index + 0.05)
  let bf := 1 - 0.5 * s.env.budget_pressure
  let llm0 := if bf > 0 then s.local_llm_infra_level + 0.04 * ipR * bf
              else s.local_llm_infra_level
  let llmR := min 1 (max 0 llm0)
  let ipN := if s.suppression_level > 0.6 ∨ s.dx_clarity < 0.3
             then s.innovation_potential_index - 0.02
             else s.innovation_potential_index
  let ip1 := if ready then ipR else ipN
  let llm1 := if ready then llmR else s.local_llm_infra_level - 0.01
  let asq1 := if ready then s.ai_service_quality_index + 0.05 * llmR
              else s.ai_service_quality_index - 0.01
  let aai1 := if ready then s.ai_accessibility_index + 0.04 * llmR
              else s.ai_accessibility_index - 0.01
  { s with
    innovation_potential_index := clamp01 ip1,
    local_llm_infra_level := clamp01 llm1,
    ai_service_quality_index := clamp01 asq1,
    ai_accessibility_index := clamp01 aai1 }

/-- SchoolEcosystem._tick_external_systems. -/
def tickExternalSystems (s : School) : School :=
  let c1 := s.infrastructure_health < 0.6 ∧ s.dx_clarity < 0.3
  let dep1 := if c1 then s.external_system_dependency + 0.05
              else s.external_system_dependency
  let spend1 := if c1 then s.external_spend + 0.10 else s.external_spend
  let lci1 := if c1 then s.learning_cost_index + 0.05 else s.learning_cost_index
  let cx1 := if c1 then s.system_complexity + 0.04 else s.system_complexity
  let wl1 := if c1 then s.workload_index + 0.03 else s.workload_index
  let infra1 := if c1 then s.infrastructure_health + 0.01 else s.infrastructure_health
  let b1 := if c1 then s.burnout_index + 0.02 else s.burnout_index
  let c2 := s.suppression_level < 0.4 ∧ s.dx_clarity > 0.5
  let dep2 := if c2 then dep1 - 0.03 else dep1
  let cx2 := if c2 then cx1 - 0.03 else cx1
  let wl2 := if c2 then wl1 - 0.02 else wl1
  let lci2 := if c2 then lci1 - 0.02 else lci1
  { s with
    external_system_dependency := clamp01 dep2,
    external_spend := spend1,
    learning_cost_index := clamp01 lci2,
    system_complexity := clamp01 cx2,
    workload_index := clamp01 wl2,
    infrastructure_health := clamp01 infra1,
    burnout_index := clamp01 b1 }

/-- SchoolEcosystem._tick_trust_and_transparency. -/
def tickTrustAndTransparency (s : School) : School :=
  let c1 := s.suppression_level > 0.6 ∨ s.info_transparency < 0.4 ∨ s.dx_clarity < 0.3
  let trust1 := if c1 then s.leadership_trust_battery - 0.03 else s.leadership_trust_battery
  let c2 := s.suppression_level < 0.4 ∧ s.info_transparency > 0.6 ∧ s.pm_capability > 0.5
      ∧ s.grand_design_clarity > 0.5 ∧ s.portal_maturity > 0.5
  let trust2 := if c2 then trust1 + 0.05 else trust1
  let transp1 := if s.suppression_level > 0.6 then s.info_transparency - 0.02
                 else if s.suppression_level < 0.4 then s.info_transparency + 0.02
                 else s.info_transparency
  { s with
    leadership_trust_battery := clamp01 trust2,
    info_transparency := clamp01 transp1 }

/-- Per-actor branch of _tick_burnout, applied to every actor with the
tick's (already clamped) burnout index B. -/
def burnoutStep (B : ℚ) (a : Actor) : Actor :=
  if (a.role = Role.teacher ∨ a.role = Role.admin) ∧ a.has_left_system = false then
    if a.burned_out = false ∧ B > 0.5 + (0.5 - a.adaptability) then
      if a.adaptability > 0.6 then
        { a with
          burned_out := true,
          has_left_system := true,
          opportunity_choice := OpportunityChoice.leave_outside,
          opportunity_cost := a.opportunity_cost + 1 }
      else
        { a with
          burned_out := true,
          opportunity_choice := OpportunityChoice.stay_inside,
          opportunity_cost := a.opportunity_cost + 0.7 }
    else a
  else a

/-- SchoolEcosystem._tick_burnout. -/
def tickBurnout (s : School) (d : DrawS) : School × DrawS :=
  let c := s.dynamics
  let b0 := s.burnout_index
    + c.infra_to_burnout * (1 - s.infrastructure_health)
    + c.dxclarity_to_burnout * (1 - s.dx_clarity)
    + c.workload_to_burnout * s.workload_index
    + c.complexity_to_burnout * s.system_complexity
    + c.trustlack_to_burnout * (1 - s.leadership_trust_battery)
    + c.personalization_to_burnout * s.task_personalization_index
    - (c.llm_relief_to_burnout * s.local_llm_infra_level
       + c.ai_service_relief_to_burnout * s.ai_service_quality_index)
  let nd := noiseQ s 0.02 d
  let B := clamp01 (b0 + nd.1)
  let rd := min 1 (0.3 + B * 0.2 + s.system_complexity * 0.2
      + (1 - s.leadership_trust_battery) * 0.2 + 0.1 * s.env.demographic_pressure)
  ({ s with
    burnout_index := B,
    recruitment_difficulty := rd,
    actors := s.actors.map (burnoutStep B) }, nd.2)

/-- SchoolEcosystem._tick_students. -/
def tickStudents (s : School) (d : DrawS) : School × DrawS :=
  let raw := (1 - s.infrastructure_health) * 0.2
    + s.burnout_index * 0.2
    + s.competitor_gap_index * 0.2
    + max 0 (0.5 - s.student_learning_efficiency) * 0.2
    + (1 - s.leadership_trust_battery) * 0.1
    + 0.1 * s.env.demographic_pressure
  let nd := noiseQ s 0.05 d
  let raw2 := raw - 0.1 * s.ai_accessibility_index - 0.1 * s.ai_service_quality_index + nd.1
  ({ s with student_exit_rate := clamp01 raw2 }, nd.2)

/-- SchoolEcosystem._tick_productivity_and_efficiency. -/
def tickProductivityAndEfficiency (s : School) (d : DrawS) : School × DrawS :=
  let c := s.dynamics
  let p0 := s.productivity_index
    - c.external_system_to_productivity * s.external_system_dependency
    - c.complexity_to_productivity * s.system_complexity
    - c.workload_to_productivity * s.workload_index
    - c.infra_bad_to_productivity * (1 - s.infrastructure_health)
    - c.fragmentation_to_productivity * s.process_fragmentation_index
    - c.personalization_to_productivity * s.task_personalization_index
    + c.llm_to_productivity * s.local_llm_infra_level
    + c.ai_access_to_productivity * s.ai_accessibility_index
  let nd1 := noiseQ s 0.03 d
  let prod := clamp01 (p0 + nd1.1)
  let base0 := 0.2 + c.base_eff_infra_weight * s.infrastructure_health
    + c.base_eff_dxclarity_weight * s.dx_clarity
  let base1 := if s.suppression_level < 0.4 then base0 + c.suppression_bonus_to_eff else base0
  let base2 := base1 + c.llm_to_efficiency * s.local_llm_infra_level
    + c.db_to_efficiency * s.database_foundation
    + c.portal_to_efficiency * s.portal_maturity
    - c.personalization_to_efficiency * s.task_personalization_index
  let nd2 := noiseQ s 0.03 nd1.2
  let effTrue := clamp01 (base2 + nd2.1)
  let effRec := clamp01 (s.efficiency_index_recognized
    + 0.03 * s.external_system_dependency + 0.02 * s.system_complexity)
  ({ s with
    productivity_index := prod,
    efficiency_index_true := effTrue,
    efficiency_index_recognized := effRec }, nd2.2)

/-- SchoolEcosystem.simulate_year: advance the year counter, then apply
the thirteen ticks in the fixed source order, threading the draw
stream through the noisy ticks. -/
def simulateYear (s : School) (d : DrawS) : School × DrawS :=
  let s1 : School := { s with years_simulated := s.years_simulated + 1 }
  let p2 := tickInfrastructure s1 d
  let p3 := tickDxClarity p2.1 p2.2
  let s4 := tickStrategyLayer p3.1
  let p5 := tickPortalAndDb s4 p3.2
  let s6 := tickPmAndDesign p5.1
  let s7 := tickChangeDynamics s6
  let s8 := tickEducationAssets s7
  let s9 := tickInnovation s8
  let s10 := tickExternalSystems s9
  let s11 := tickTrustAndTransparency s10
  let p12 := tickBurnout s11 p5.2
  let p13 := tickStudents p12.1 p12.2
  tickProductivityAndEfficiency p13.1 p13.2

/-- Repeated simulate_year calls, threading state and draw stream, as
the driver loop for _ in range(years): school.simulate_year() does. -/
def simulateYears : ℕ → School → DrawS → School × DrawS
  | 0, s, d => (s, d)
  | n + 1, s, d =>
    let p := simulateYear s d
    simulateYears n p.1 p.2

/-! Basic facts about the saturating clamp. -/

theorem clamp01_nonneg (x : ℚ) : 0 ≤ clamp01 x := le_max_left 0 _

theorem clamp01_le_one (x : ℚ) : clamp01 x ≤ 1 :=
  max_le (by norm_num) (min_le_left 1 x)

theorem le_clamp01_of_le (x y : ℚ) (hy1 : y ≤ 1) (hxy : y ≤ x) :
    y ≤ clamp01 x :=
  le_max_of_le_right (le_min hy1 hxy)

/-- Clamping invariant on a SchoolEcosystem state: every bounded scalar of
the aggregate (and of its EnvironmentConstraints) lies in the unit
interval.  The burnout index carries only its lower bound here, because
the strategy-layer tick can push burnout transiently above 1 inside a
year; its upper bound is stated separately and restored by the end of
every simulate_year call. -/
structure SInv (s : School) : Prop where
  lo_infra : 0 ≤ s.infrastructure_health
  hi_infra : s.infrastructure_health ≤ 1
  lo_dx : 0 ≤ s.dx_clarity
  hi_dx : s.dx_clarity ≤ 1
  lo_burn : 0 ≤ s.burnout_index
  lo_exit : 0 ≤ s.student_exit_rate
  hi_exit : s.student_exit_rate ≤ 1
  lo_recr : 0 ≤ s.recruitment_difficulty
  hi_recr : s.recruitment_difficulty ≤ 1
  lo_sup : 0 ≤ s.suppression_level
  hi_sup : s.suppression_level ≤ 1
  lo_dep : 0 ≤ s.external_system_dependency
  hi_dep : s.external_system_dependency ≤ 1
  lo_lci : 0 ≤ s.learning_cost_index
  hi_lci : s.learning_cost_index ≤ 1
  lo_cx : 0 ≤ s.system_complexity
  hi_cx : s.system_complexity ≤ 1
  lo_wl : 0 ≤ s.workload_index
  hi_wl : s.workload_index ≤ 1
  lo_prod : 0 ≤ s.productivity_index
  hi_prod : s.productivity_index ≤ 1
  lo_efft : 0 ≤ s.efficiency_index_true
  hi_efft : s.efficiency_index_true ≤ 1
  lo_effr : 0 ≤ s.efficiency_index_recognized
  hi_effr : s.efficiency_index_recognized ≤ 1
  lo_sc : 0 ≤ s.strategic_consistency
  hi_sc : s.strategic_consistency ≤ 1
  lo_cri : 0 ≤ s.change_request_intensity
  hi_cri : s.change_request_intensity ≤ 1
  lo_crr : 0 ≤ s.change_rejection_rate
  hi_crr : s.change_rejection_rate ≤ 1
  lo_asset : 0 ≤ s.educational_asset_index
  hi_asset : s.educational_asset_index ≤ 1
  lo_repo : 0 ≤ s.central_repository_level
  hi_repo : s.central_repository_level ≤ 1
  lo_sle : 0 ≤ s.student_learning_efficiency
  hi_sle : s.student_learning_efficiency ≤ 1
  lo_cgi : 0 ≤ s.competitor_gap_index
  hi_cgi : s.competitor_gap_index ≤ 1
  lo_ip : 0 ≤ s.innovation_potential_index
  hi_ip : s.innovation_potential_index ≤ 1
  lo_llm : 0 ≤ s.local_llm_infra_level
  hi_llm : s.local_llm_infra_level ≤ 1
  lo_asq : 0 ≤ s.ai_service_quality_index
  hi_asq : s.ai_service_quality_index ≤ 1
  lo_aai : 0 ≤ s.ai_accessibility_index
  hi_aai : s.ai_accessibility_index ≤ 1
  lo_portal : 0 ≤ s.portal_maturity
  hi_portal : s.portal_maturity ≤ 1
  lo_db : 0 ≤ s.database_foundation
  hi_db : s.database_foundation ≤ 1
  lo_frag : 0 ≤ s.process_fragmentation_index
  hi_frag : s.process_fragmentation_index ≤ 1
  lo_pm : 0 ≤ s.pm_capability
  hi_pm : s.pm_capability ≤ 1
  lo_gdc : 0 ≤ s.grand_design_clarity
  hi_gdc : s.grand_design_clarity ≤ 1
  lo_trust : 0 ≤ s.leadership_trust_battery
  hi_trust : s.leadership_trust_battery ≤ 1
  lo_transp : 0 ≤ s.info_transparency
  hi_transp : s.info_transparency ≤ 1
  lo_tpi : 0 ≤ s.task_personalization_index
  hi_tpi : s.task_personalization_index ≤ 1
  lo_budget : 0 ≤ s.env.budget_pressure
  hi_budget : s.env.budget_pressure ≤ 1
  lo_rigid : 0 ≤ s.env.regulation_rigidity
  hi_rigid : s.env.regulation_rigidity ≤ 1
  lo_demo : 0 ≤ s.env.demographic_pressure
  hi_demo : s.env.demographic_pressure ≤ 1

theorem tickStrategyLayer_inv (s : School) (h : SInv s) : SInv (tickStrategyLayer s) := by
  refine { h with
    lo_cri := clamp01_nonneg _, hi_cri := clamp01_le_one _,
    lo_crr := clamp01_nonneg _, hi_crr := clamp01_le_one _,
    lo_sc := clamp01_nonneg _, hi_sc := clamp01_le_one _,
    lo_burn := ?_ }
  simp only [tickStrategyLayer]
  split <;> linarith [h.lo_burn, h.lo_sup]

theorem rd_nonneg (B cx tr demo : ℚ) (hB : 0 ≤ B) (hcx : 0 ≤ cx)
    (htr : tr ≤ 1) (hdemo : 0 ≤ demo) :
    0 ≤ min 1 (0.3 + B * 0.2 + cx * 0.2 + (1 - tr) * 0.2 + 0.1 * demo) :=
  le_min (by norm_num) (by nlinarith)

theorem tickInfrastructure_inv (s : School) (d : DrawS) (h : SInv s) :
    SInv (tickInfrastructure s d).1 :=
  { h with lo_infra := clamp01_nonneg _, hi_infra := clamp01_le_one _ }

theorem tickDxClarity_inv (s : School) (d : DrawS) (h : SInv s) :
    SInv (tickDxClarity s d).1 :=
  { h with lo_dx := clamp01_nonneg _, hi_dx := clamp01_le_one _ }

theorem tickPortalAndDb_inv (s : School) (d : DrawS) (h : SInv s) :
    SInv (tickPortalAndDb s d).1 :=
  { h with
    lo_portal := clamp01_nonneg _, hi_portal := clamp01_le_one _,
    lo_db := clamp01_nonneg _, hi_db := clamp01_le_one _,
    lo_frag := clamp01_nonneg _, hi_frag := clamp01_le_one _,
    lo_sle := clamp01_nonneg _, hi_sle := clamp01_le_one _,
    lo_prod := clamp01_nonneg _, hi_prod := clamp01_le_one _,
    lo_tpi := clamp01_nonneg _, hi_tpi := clamp01_le_one _,
    lo_wl := clamp01_nonneg _, hi_wl := clamp01_le_one _,
    lo_cx := clamp01_nonneg _, hi_cx := clamp01_le_one _,
    lo_asset := clamp01_nonneg _, hi_asset := clamp01_le_one _ }

theorem tickPmAndDesign_inv (s : School) (h : SInv s) : SInv (tickPmAndDesign s) :=
  { h with
    lo_burn := clamp01_nonneg _,
    lo_prod := clamp01_nonneg _, hi_prod := clamp01_le_one _,
    lo_trust := clamp01_nonneg _, hi_trust := clamp01_le_one _,
    lo_sc := clamp01_nonneg _, hi_sc := clamp01_le_one _ }

theorem tickChangeDynamics_inv (s : School) (h : SInv s) : SInv (tickChangeDynamics s) := by
  simp only [tickChangeDynamics]
  split
  · exact h
  · exact { h with
      lo_dx := clamp01_nonneg _, hi_dx := clamp01_le_one _,
      lo_infra := clamp01_nonneg _, hi_infra := clamp01_le_one _,
      lo_burn := clamp01_nonneg _ }

theorem tickEducationAssets_inv (s : School) (h : SInv s) : SInv (tickEducationAssets s) :=
  { h with
    lo_sle := clamp01_nonneg _, hi_sle := clamp01_le_one _,
    lo_cgi := clamp01_nonneg _, hi_cgi := clamp01_le_one _,
    lo_asset := clamp01_nonneg _, hi_asset := clamp01_le_one _,
    lo_repo := clamp01_nonneg _, hi_repo := clamp01_le_one _ }

theorem tickInnovation_inv (s : School) (h : SInv s) : SInv (tickInnovation s) :=
  { h with
    lo_ip := clamp01_nonneg _, hi_ip := clamp01_le_one _,
    lo_llm := clamp01_nonneg _, hi_llm := clamp01_le_one _,
    lo_asq := clamp01_nonneg _, hi_asq := clamp01_le_one _,
    lo_aai := clamp01_nonneg _, hi_aai := clamp01_le_one _ }

theorem tickExternalSystems_inv (s : School) (h : SInv s) : SInv (tickExternalSystems s) :=
  { h with
    lo_dep := clamp01_nonneg _, hi_dep := clamp01_le_one _,
    lo_lci := clamp01_nonneg _, hi_lci := clamp01_le_one _,
    lo_cx := clamp01_nonneg _, hi_cx := clamp01_le_one _,
    lo_wl := clamp01_nonneg _, hi_wl := clamp01_le_one _,
    lo_infra := clamp01_nonneg _, hi_infra := clamp01_le_one _,
    lo_burn := clamp01_nonneg _ }

theorem tickTrustAndTransparency_inv (s : School) (h : SInv s) :
    SInv (tickTrustAndTransparency s) :=
  { h with
    lo_trust := clamp01_nonneg _, hi_trust := clamp01_le_one _,
    lo_transp := clamp01_nonneg _, hi_transp := clamp01_le_one _ }

theorem tickBurnout_inv (s : School) (d : DrawS) (h : SInv s) : SInv (tickBurnout s d).1 :=
  { h with
    lo_burn := clamp01_nonneg _,
    lo_recr := rd_nonneg _ _ _ _ (clamp01_nonneg _) h.lo_cx h.hi_trust h.lo_demo,
    hi_recr := min_le_left _ _ }

theorem tickStudents_inv (s : School) (d : DrawS) (h : SInv s) : SInv (tickStudents s d).1 :=
  { h with lo_exit := clamp01_nonneg _, hi_exit := clamp01_le_one _ }

theorem tickProductivityAndEfficiency_inv (s : School) (d : DrawS) (h : SInv s) :
    SInv (tickProductivityAndEfficiency s d).1 :=
  { h with
    lo_prod := clamp01_nonneg _, hi_prod := clamp01_le_one _,
    lo_efft := clamp01_nonneg _, hi_efft := clamp01_le_one _,
    lo_effr := clamp01_nonneg _, hi_effr := clamp01_le_one _ }

theorem yearStart_inv (s : School) (h : SInv s) :
    SInv { s with years_simulated := s.years_simulated + 1 } :=
  { h with }

theorem simulateYear_inv (s : School) (d : DrawS) (h : SInv s) : SInv (simulateYear s d).1 := by
  simp only [simulateYear]
  exact tickProductivityAndEfficiency_inv _ _
    (tickStudents_inv _ _
      (tickBurnout_inv _ _
        (tickTrustAndTransparency_inv _
          (tickExternalSystems_inv _
            (tickInnovation_inv _
              (tickEducationAssets_inv _
                (tickChangeDynamics_inv _
                  (tickPmAndDesign_inv _
                    (tickPortalAndDb_inv _ _
                      (tickStrategyLayer_inv _
                        (tickDxClarity_inv _ _
                          (tickInfrastructure_inv _ _
                            (yearStart_inv _ h)))))))))))))

/-! Frame equations: fields a tick does not write are returned unchanged. -/

theorem Infra_frame_efficiency_index_recognized (s : School) (d : DrawS) :
    (tickInfrastructure s d).1.efficiency_index_recognized = s.efficiency_index_recognized := rfl

theorem Dx_frame_efficiency_index_recognized (s : School) (d : DrawS) :
    (tickDxClarity s d).1.efficiency_index_recognized = s.efficiency_index_recognized := rfl

theorem Strat_frame_efficiency_index_recognized (s : School) :
    (tickStrategyLayer s).efficiency_index_recognized = s.efficiency_index_recognized := rfl

theorem Portal_frame_efficiency_index_recognized (s : School) (d : DrawS) :
    (tickPortalAndDb s d).1.efficiency_index_recognized = s.efficiency_index_recognized := rfl

theorem Pm_frame_efficiency_index_recognized (s : School) :
    (tickPmAndDesign s).efficiency_index_recognized = s.efficiency_index_recognized := rfl

theorem Edu_frame_efficiency_index_recognized (s : School) :
    (tickEducationAssets s).efficiency_index_recognized = s.efficiency_index_recognized := rfl

theorem Innov_frame_efficiency_index_recognized (s : School) :
    (tickInnovation s).efficiency_index_recognized = s.efficiency_index_recognized := rfl

theorem Ext_frame_efficiency_index_recognized (s : School) :
    (tickExternalSystems s).efficiency_index_recognized = s.efficiency_index_recognized := rfl

theorem Trust_frame_efficiency_index_recognized (s : School) :
    (tickTrustAndTransparency s).efficiency_index_recognized = s.efficiency_index_recognized := rfl

theorem Burn_frame_efficiency_index_recognized (s : School) (d : DrawS) :
    (tickBurnout s d).1.efficiency_index_recognized = s.efficiency_index_recognized := rfl

theorem Stud_frame_efficiency_index_recognized (s : School) (d : DrawS) :
    (tickStudents s d).1.efficiency_index_recognized = s.efficiency_index_recognized := rfl

theorem Trust_frame_external_system_dependency (s : School) :
    (tickTrustAndTransparency s).external_system_dependency = s.external_system_dependency := rfl

theorem Burn_frame_external_system_dependency (s : School) (d : DrawS) :
    (tickBurnout s d).1.external_system_dependency = s.external_system_dependency := rfl

theorem Stud_frame_external_system_dependency (s : School) (d : DrawS) :
    (tickStudents s d).1.external_system_dependency = s.external_system_dependency := rfl

theorem Trust_frame_system_complexity (s : School) :
    (tickTrustAndTransparency s).system_complexity = s.system_complexity := rfl

theorem Burn_frame_system_complexity (s : School) (d : DrawS) :
    (tickBurnout s d).1.system_complexity = s.system_complexity := rfl

theorem Stud_frame_system_complexity (s : School) (d : DrawS) :
    (tickStudents s d).1.system_complexity = s.system_complexity := rfl

theorem Infra_frame_actors (s : School) (d : DrawS) :
    (tickInfrastructure s d).1.actors = s.actors := rfl

theorem Dx_frame_actors (s : School) (d : DrawS) :
    (tickDxClarity s d).1.actors = s.actors := rfl

theorem Strat_frame_actors (s : School) :
    (tickStrategyLayer s).actors = s.actors := rfl

theorem Portal_frame_actors (s : School) (d : DrawS) :
    (tickPortalAndDb s d).1.actors = s.actors := rfl

theorem Pm_frame_actors (s : School) :
    (tickPmAndDesign s).actors = s.actors := rfl

theorem Edu_frame_actors (s : School) :
    (tickEducationAssets s).actors = s.actors := rfl

theorem Innov_frame_actors (s : School) :
    (tickInnovation s).actors = s.actors := rfl

theorem Ext_frame_actors (s : School) :
    (tickExternalSystems s).actors = s.actors := rfl

theorem Trust_frame_actors (s : School) :
    (tickTrustAndTransparency s).actors = s.actors := rfl

theorem Stud_frame_actors (s : School) (d : DrawS) :
    (tickStudents s d).1.actors = s.actors := rfl

theorem Prod_frame_actors (s : School) (d : DrawS) :
    (tickProductivityAndEfficiency s d).1.actors = s.actors := rfl

theorem Infra_frame_randomness (s : School) (d : DrawS) :
    (tickInfrastructure s d).1.randomness = s.randomness := rfl

theorem Dx_frame_randomness (s : School) (d : DrawS) :
    (tickDxClarity s d).1.randomness = s.randomness := rfl

theorem Strat_frame_randomness (s : School) :
    (tickStrategyLayer s).randomness = s.randomness := rfl

theorem Portal_frame_randomness (s : School) (d : DrawS) :
    (tickPortalAndDb s d).1.randomness = s.randomness := rfl

theorem Pm_frame_randomness (s : School) :
    (tickPmAndDesign s).randomness = s.randomness := rfl

theorem Edu_frame_randomness (s : School) :
    (tickEducationAssets s).randomness = s.randomness := rfl

theorem Innov_frame_randomness (s : School) :
    (tickInnovation s).randomness = s.randomness := rfl

theorem Ext_frame_randomness (s : School) :
    (tickExternalSystems s).randomness = s.randomness := rfl

theorem Trust_frame_randomness (s : School) :
    (tickTrustAndTransparency s).randomness = s.randomness := rfl

theorem Burn_frame_randomness (s : School) (d : DrawS) :
    (tickBurnout s d).1.randomness = s.randomness := rfl

theorem Stud_frame_randomness (s : School) (d : DrawS) :
    (tickStudents s d).1.randomness = s.randomness := rfl

theorem Prod_frame_randomness (s : School) (d : DrawS) :
    (tickProductivityAndEfficiency s d).1.randomness = s.randomness := rfl

theorem Infra_frame_suppression_level (s : School) (d : DrawS) :
    (tickInfrastructure s d).1.suppression_level = s.suppression_level := rfl

theorem Dx_frame_suppression_level (s : School) (d : DrawS) :
    (tickDxClarity s d).1.suppression_level = s.suppression_level := rfl

theorem Strat_frame_suppression_level (s : School) :
    (tickStrategyLayer s).suppression_level = s.suppression_level := rfl

theorem Portal_frame_suppression_level (s : School) (d : DrawS) :
    (tickPortalAndDb s d).1.suppression_level = s.suppression_level := rfl

theorem Pm_frame_suppression_level (s : School) :
    (tickPmAndDesign s).suppression_level = s.suppression_level := rfl

theorem Infra_frame_systemic_opportunity_cost (s : School) (d : DrawS) :
    (tickInfrastructure s d).1.systemic_opportunity_cost = s.systemic_opportunity_cost := rfl

theorem Dx_frame_systemic_opportunity_cost (s : School) (d : DrawS) :
    (tickDxClarity s d).1.systemic_opportunity_cost = s.systemic_opportunity_cost := rfl

theorem Portal_frame_systemic_opportunity_cost (s : School) (d : DrawS) :
    (tickPortalAndDb s d).1.systemic_opportunity_cost = s.systemic_opportunity_cost := rfl

theorem Pm_frame_systemic_opportunity_cost (s : School) :
    (tickPmAndDesign s).systemic_opportunity_cost = s.systemic_opportunity_cost := rfl

theorem Edu_frame_systemic_opportunity_cost (s : School) :
    (tickEducationAssets s).systemic_opportunity_cost = s.systemic_opportunity_cost := rfl

theorem Innov_frame_systemic_opportunity_cost (s : School) :
    (tickInnovation s).systemic_opportunity_cost = s.systemic_opportunity_cost := rfl

theorem Ext_frame_systemic_opportunity_cost (s : School) :
    (tickExternalSystems s).systemic_opportunity_cost = s.systemic_opportunity_cost := rfl

theorem Trust_frame_systemic_opportunity_cost (s : School) :
    (tickTrustAndTransparency s).systemic_opportunity_cost = s.systemic_opportunity_cost := rfl

theorem Burn_frame_systemic_opportunity_cost (s : School) (d : DrawS) :
    (tickBurnout s d).1.systemic_opportunity_cost = s.systemic_opportunity_cost := rfl

theorem Stud_frame_systemic_opportunity_cost (s : School) (d : DrawS) :
    (tickStudents s d).1.systemic_opportunity_cost = s.systemic_opportunity_cost := rfl

theorem Prod_frame_systemic_opportunity_cost (s : School) (d : DrawS) :
    (tickProductivityAndEfficiency s d).1.systemic_opportunity_cost = s.systemic_opportunity_cost := rfl

theorem Infra_frame_change_seeds_planted (s : School) (d : DrawS) :
    (tickInfrastructure s d).1.change_seeds_planted = s.change_seeds_planted := rfl

theorem Dx_frame_change_seeds_planted (s : School) (d : DrawS) :
    (tickDxClarity s d).1.change_seeds_planted = s.change_seeds_planted := rfl

theorem Strat_frame_change_seeds_planted (s : School) :
    (tickStrategyLayer s).change_seeds_planted = s.change_seeds_planted := rfl

theorem Portal_frame_change_seeds_planted (s : School) (d : DrawS) :
    (tickPortalAndDb s d).1.change_seeds_planted = s.change_seeds_planted := rfl

theorem Pm_frame_change_seeds_planted (s : School) :
    (tickPmAndDesign s).change_seeds_planted = s.change_seeds_planted := rfl

theorem Edu_frame_change_seeds_planted (s : School) :
    (tickEducationAssets s).change_seeds_planted = s.change_seeds_planted := rfl

theorem Innov_frame_change_seeds_planted (s : School) :
    (tickInnovation s).change_seeds_planted = s.change_seeds_planted := rfl

theorem Ext_frame_change_seeds_planted (s : School) :
    (tickExternalSystems s).change_seeds_planted = s.change_seeds_planted := rfl

theorem Trust_frame_change_seeds_planted (s : School) :
    (tickTrustAndTransparency s).change_seeds_planted = s.change_seeds_planted := rfl

theorem Burn_frame_change_seeds_planted (s : School) (d : DrawS) :
    (tickBurnout s d).1.change_seeds_planted = s.change_seeds_planted := rfl

theorem Stud_frame_change_seeds_planted (s : School) (d : DrawS) :
    (tickStudents s d).1.change_seeds_planted = s.change_seeds_planted := rfl

theorem Prod_frame_change_seeds_planted (s : School) (d : DrawS) :
    (tickProductivityAndEfficiency s d).1.change_seeds_planted = s.change_seeds_planted := rfl

theorem Infra_frame_change_seeds_suppressed (s : School) (d : DrawS) :
    (tickInfrastructure s d).1.change_seeds_suppressed = s.change_seeds_suppressed := rfl

theorem Dx_frame_change_seeds_suppressed (s : School) (d : DrawS) :
    (tickDxClarity s d).1.change_seeds_suppressed = s.change_seeds_suppressed := rfl

theorem Strat_frame_change_seeds_suppressed (s : School) :
    (tickStrategyLayer s).change_seeds_suppressed = s.change_seeds_suppressed := rfl

theorem Portal_frame_change_seeds_suppressed (s : School) (d : DrawS) :
    (tickPortalAndDb s d).1.change_seeds_suppressed = s.change_seeds_suppressed := rfl

theorem Pm_frame_change_seeds_suppressed (s : School) :
    (tickPmAndDesign s).change_seeds_suppressed = s.change_seeds_suppressed := rfl

theorem Edu_frame_change_seeds_suppressed (s : School) :
    (tickEducationAssets s).change_seeds_suppressed = s.change_seeds_suppressed := rfl

theorem Innov_frame_change_seeds_suppressed (s : School) :
    (tickInnovation s).change_seeds_suppressed = s.change_seeds_suppressed := rfl

theorem Ext_frame_change_seeds_suppressed (s : School) :
    (tickExternalSystems s).change_seeds_suppressed = s.change_seeds_suppressed := rfl

theorem Trust_frame_change_seeds_suppressed (s : School) :
    (tickTrustAndTransparency s).change_seeds_suppressed = s.change_seeds_suppressed := rfl

theorem Burn_frame_change_seeds_suppressed (s : School) (d : DrawS) :
    (tickBurnout s d).1.change_seeds_suppressed = s.change_seeds_suppressed := rfl

theorem Stud_frame_change_seeds_suppressed (s : School) (d : DrawS) :
    (tickStudents s d).1.change_seeds_suppressed = s.change_seeds_suppressed := rfl

theorem Prod_frame_change_seeds_suppressed (s : School) (d : DrawS) :
    (tickProductivityAndEfficiency s d).1.change_seeds_suppressed = s.change_seeds_suppressed := rfl

theorem Stud_frame_burnout_index (s : School) (d : DrawS) :
    (tickStudents s d).1.burnout_index = s.burnout_index := rfl

theorem Prod_frame_burnout_index (s : School) (d : DrawS) :
    (tickProductivityAndEfficiency s d).1.burnout_index = s.burnout_index := rfl

theorem Change_frame_efficiency_index_recognized (s : School) :
    (tickChangeDynamics s).efficiency_index_recognized = s.efficiency_index_recognized := by
  simp only [tickChangeDynamics]
  split <;> rfl

theorem Change_frame_randomness (s : School) :
    (tickChangeDynamics s).randomness = s.randomness := by
  simp only [tickChangeDynamics]
  split <;> rfl

theorem simulateYear_burnout_le (s : School) (d : DrawS) :
    (simulateYear s d).1.burnout_index ≤ 1 := by
  simp only [simulateYear, Prod_frame_burnout_index, Stud_frame_burnout_index]
  exact clamp01_le_one _

theorem simulateYears_inv (n : ℕ) (s : School) (d : DrawS) (h : SInv s) :
    SInv (simulateYears n s d).1 := by
  induction n generalizing s d with
  | zero => exact h
  | succ n ih => exact ih _ _ (simulateYear_inv s d h)

theorem simulateYears_burnout_le (n : ℕ) (s : School) (d : DrawS)
    (hb : s.burnout_index ≤ 1) :
    (simulateYears n s d).1.burnout_index ≤ 1 := by
  induction n generalizing s d with
  | zero => exact hb
  | succ n ih => exact ih _ _ (simulateYear_burnout_le _ _)

/-- Concrete example state: the SchoolEcosystem field defaults of the
source, with default environment constraints and no actors. -/
def exSchool : School := { name := "S", env := {} }

/-- C1: if every bounded field of the SchoolEcosystem lies in the unit
interval initially, then after any number of consecutive simulate_year
calls, for any randomness level and any draws in their stated uniform
range (the bound on the draws is stated as in the claim, though the
per-tick clamps make the result hold for arbitrary draws), every
bounded field of the SchoolEcosystem still lies in the unit interval. -/
theorem school_clamping_invariant (s : School) (d : DrawS) (n : ℕ)
    (hInv : SInv s) (hburn : s.burnout_index ≤ 1)
    (_hd : ∀ k, -1 ≤ d k ∧ d k ≤ 1) :
    SInv (simulateYears n s d).1 ∧ (simulateYears n s d).1.burnout_index ≤ 1 :=
  ⟨simulateYears_inv n s d hInv, simulateYears_burnout_le n s d hburn⟩

theorem school_clamping_invariant_witness :
    SInv (simulateYears 3 exSchool (fun _ => 0)).1 ∧
      (simulateYears 3 exSchool (fun _ => 0)).1.burnout_index ≤ 1 :=
  school_clamping_invariant exSchool (fun _ => 0) 3
    (by constructor <;> norm_num [exSchool]) (by norm_num [exSchool])
    (fun k => ⟨by norm_num, by norm_num⟩)

/-- Concrete state hitting the missing re-clamp of the strategy layer:
burnout_index starts at the top of its range, suppression is strong
(default 0.8) and there is no SWOT artifact (default). -/
def exSchoolBurn : School := { name := "S", env := {}, burnout_index := 1 }

/-- C2 counterexample: the strategy-layer tick mutates burnout_index but
does not re-clamp it, so a state with every bounded field in range can
leave the tick with burnout_index = 1.016 > 1. -/
theorem strategy_tick_leaves_burnout_above_one :
    1 < (tickStrategyLayer exSchoolBurn).burnout_index := by
  norm_num [tickStrategyLayer, exSchoolBurn]

/-- C2 amended: the strategy-layer tick re-clamps the three fields of its
final clamp loop and preserves every bound of the clamping invariant
except the upper bound of burnout_index, which it can exceed by at most
0.02 * suppression_level; every one of the other twelve tick functions
re-clamps each bounded field it mutates, preserving the full clamping
invariant including the upper bound of burnout_index. -/
theorem tick_clamping_amended :
    (∀ s : School, SInv s ∧ s.burnout_index ≤ 1 →
      SInv (tickStrategyLayer s) ∧
        (tickStrategyLayer s).burnout_index ≤ 1 + 0.02 * s.suppression_level) ∧
    (∀ (s : School) (d : DrawS), SInv s ∧ s.burnout_index ≤ 1 →
      SInv (tickInfrastructure s d).1 ∧ (tickInfrastructure s d).1.burnout_index ≤ 1) ∧
    (∀ (s : School) (d : DrawS), SInv s ∧ s.burnout_index ≤ 1 →
      SInv (tickDxClarity s d).1 ∧ (tickDxClarity s d).1.burnout_index ≤ 1) ∧
    (∀ (s : School) (d : DrawS), SInv s ∧ s.burnout_index ≤ 1 →
      SInv (tickPortalAndDb s d).1 ∧ (tickPortalAndDb s d).1.burnout_index ≤ 1) ∧
    (∀ s : School, SInv s ∧ s.burnout_index ≤ 1 →
      SInv (tickPmAndDesign s) ∧ (tickPmAndDesign s).burnout_index ≤ 1) ∧
    (∀ s : School, SInv s ∧ s.burnout_index ≤ 1 →
      SInv (tickChangeDynamics s) ∧ (tickChangeDynamics s).burnout_index ≤ 1) ∧
    (∀ s : School, SInv s ∧ s.burnout_index ≤ 1 →
      SInv (tickEducationAssets s) ∧ (tickEducationAssets s).burnout_index ≤ 1) ∧
    (∀ s : School, SInv s ∧ s.burnout_index ≤ 1 →
      SInv (tickInnovation s) ∧ (tickInnovation s).burnout_index ≤ 1) ∧
    (∀ s : School, SInv s ∧ s.burnout_index ≤ 1 →
      SInv (tickExternalSystems s) ∧ (tickExternalSystems s).burnout_index ≤ 1) ∧
    (∀ s : School, SInv s ∧ s.burnout_index ≤ 1 →
      SInv (tickTrustAndTransparency s) ∧ (tickTrustAndTransparency s).burnout_index ≤ 1) ∧
    (∀ (s : School) (d : DrawS), SInv s ∧ s.burnout_index ≤ 1 →
      SInv (tickBurnout s d).1 ∧ (tickBurnout s d).1.burnout_index ≤ 1) ∧
    (∀ (s : School) (d : DrawS), SInv s ∧ s.burnout_index ≤ 1 →
      SInv (tickStudents s d).1 ∧ (tickStudents s d).1.burnout_index ≤ 1) ∧
    (∀ (s : School) (d : DrawS), SInv s ∧ s.burnout_index ≤ 1 →
      SInv (tickProductivityAndEfficiency s d).1 ∧
        (tickProductivityAndEfficiency s d).1.burnout_index ≤ 1) := by
  refine ⟨?_, ?_, ?_, ?_, ?_, ?_, ?_, ?_, ?_, ?_, ?_, ?_, ?_⟩
  · intro s h
    refine ⟨tickStrategyLayer_inv s h.1, ?_⟩
    have hsup := h.1.lo_sup
    have hb := h.2
    simp only [tickStrategyLayer]
    split <;> linarith
  · exact fun s d h => ⟨tickInfrastructure_inv s d h.1, h.2⟩
  · exact fun s d h => ⟨tickDxClarity_inv s d h.1, h.2⟩
  · exact fun s d h => ⟨tickPortalAndDb_inv s d h.1, h.2⟩
  · exact fun s h => ⟨tickPmAndDesign_inv s h.1, clamp01_le_one _⟩
  · intro s h
    refine ⟨tickChangeDynamics_inv s h.1, ?_⟩
    simp only [tickChangeDynamics]
    split
    · exact h.2
    · exact clamp01_le_one _
  · exact fun s h => ⟨tickEducationAssets_inv s h.1, h.2⟩
  · exact fun s h => ⟨tickInnovation_inv s h.1, h.2⟩
  · exact fun s h => ⟨tickExternalSystems_inv s h.1, clamp01_le_one _⟩
  · exact fun s h => ⟨tickTrustAndTransparency_inv s h.1, h.2⟩
  · exact fun s d h => ⟨tickBurnout_inv s d h.1, clamp01_le_one _⟩
  · exact fun s d h => ⟨tickStudents_inv s d h.1, h.2⟩
  · exact fun s d h => ⟨tickProductivityAndEfficiency_inv s d h.1, h.2⟩

theorem tick_clamping_amended_witness :
    SInv (tickStrategyLayer exSchool) ∧
      (tickStrategyLayer exSchool).burnout_index ≤ 1 + 0.02 * exSchool.suppression_level :=
  tick_clamping_amended.1 exSchool
    ⟨by constructor <;> norm_num [exSchool], by norm_num [exSchool]⟩

theorem tickProd_effr_eq (s : School) (d : DrawS) :
    (tickProductivityAndEfficiency s d).1.efficiency_index_recognized =
      clamp01 (s.efficiency_index_recognized + 0.03 * s.external_system_dependency
        + 0.02 * s.system_complexity) := rfl

theorem effr_aux (a b c : ℚ) (ha : a ≤ 1) (hb : 0 ≤ b) (hc : 0 ≤ c) :
    a ≤ clamp01 (a + 0.03 * b + 0.02 * c) :=
  le_clamp01_of_le _ _ ha (by linarith)

theorem simulateYear_effr_mono (s : School) (d : DrawS)
    (h1 : s.efficiency_index_recognized ≤ 1) :
    s.efficiency_index_recognized ≤ (simulateYear s d).1.efficiency_index_recognized := by
  simp only [simulateYear, tickProd_effr_eq,
    Stud_frame_efficiency_index_recognized, Burn_frame_efficiency_index_recognized,
    Trust_frame_efficiency_index_recognized, Ext_frame_efficiency_index_recognized,
    Innov_frame_efficiency_index_recognized, Edu_frame_efficiency_index_recognized,
    Change_frame_efficiency_index_recognized, Pm_frame_efficiency_index_recognized,
    Portal_frame_efficiency_index_recognized, Strat_frame_efficiency_index_recognized,
    Dx_frame_efficiency_index_recognized, Infra_frame_efficiency_index_recognized,
    Stud_frame_external_system_dependency, Burn_frame_external_system_dependency,
    Trust_frame_external_system_dependency,
    Stud_frame_system_complexity, Burn_frame_system_complexity,
    Trust_frame_system_complexity]
  exact effr_aux _ _ _ h1 (clamp01_nonneg _) (clamp01_nonneg _)

theorem simulateYear_effr_le_one (s : School) (d : DrawS) :
    (simulateYear s d).1.efficiency_index_recognized ≤ 1 := clamp01_le_one _

/-- C3: efficiency_index_recognized is a monotone ratchet: starting from
any state whose recognized-efficiency KPI lies in the unit interval,
each simulate_year call in a sequence leaves it greater than or equal
to its value before the call. -/
theorem effr_ratchet (s : School) (d : DrawS)
    (h : 0 ≤ s.efficiency_index_recognized ∧ s.efficiency_index_recognized ≤ 1) (k : ℕ) :
    (simulateYears k s d).1.efficiency_index_recognized ≤
      (simulateYears (k + 1) s d).1.efficiency_index_recognized := by
  induction k generalizing s d with
  | zero => exact simulateYear_effr_mono s d h.2
  | succ n ih =>
    exact ih _ _ ⟨clamp01_nonneg _, simulateYear_effr_le_one s d⟩

theorem effr_ratchet_witness :
    (simulateYears 1 exSchool (fun _ => 0)).1.efficiency_index_recognized ≤
      (simulateYears 2 exSchool (fun _ => 0)).1.efficiency_index_recognized :=
  effr_ratchet exSchool (fun _ => 0)
    ⟨by norm_num [exSchool], by norm_num [exSchool]⟩ 1

/-- C4: in the burnout tick, the actor roster is mapped with the
per-actor step at the tick's burnout index, and for every teacher/admin
actor still in the system the step behaves exactly as specified: with
personal threshold 0.5 + (0.5 - adaptability), an actor that is not yet
burned out and whose threshold is exceeded by the burnout index is
marked burned out and then either leaves (adaptability > 0.6, choice
leave_outside, opportunity cost +1.0) or stays (choice stay_inside,
opportunity cost +0.7); an actor not satisfying the trip condition is
returned unchanged. -/
theorem burnout_tick_actor_update (s : School) (d : DrawS) (a : Actor)
    (hrole : a.role = Role.teacher ∨ a.role = Role.admin)
    (hleft : a.has_left_system = false) :
    (tickBurnout s d).1.actors =
      s.actors.map (burnoutStep (tickBurnout s d).1.burnout_index) ∧
    (a.burned_out = false ∧
        (tickBurnout s d).1.burnout_index > 0.5 + (0.5 - a.adaptability) →
      burnoutStep (tickBurnout s d).1.burnout_index a =
        (if a.adaptability > 0.6 then
          { a with burned_out := true, has_left_system := true,
                   opportunity_choice := OpportunityChoice.leave_outside,
                   opportunity_cost := a.opportunity_cost + 1 }
        else
          { a with burned_out := true,
                   opportunity_choice := OpportunityChoice.stay_inside,
                   opportunity_cost := a.opportunity_cost + 0.7 })) ∧
    (¬(a.burned_out = false ∧
        (tickBurnout s d).1.burnout_index > 0.5 + (0.5 - a.adaptability)) →
      burnoutStep (tickBurnout s d).1.burnout_index a = a) := by
  refine ⟨rfl, ?_, ?_⟩
  · intro hc
    simp only [burnoutStep]
    rw [if_pos ⟨hrole, hleft⟩, if_pos hc]
  · intro hnc
    simp only [burnoutStep]
    rw [if_pos ⟨hrole, hleft⟩, if_neg hnc]

/-- Sample high-adaptability teacher, as in the demo scenario. -/
def exTeacher : Actor :=
  { name := "HighAdaptTeacher1", role := Role.teacher,
    os_version := "HighAdaptOS-2025 (LLM-aware)", adaptability := 0.9,
    protected_ := false, change_attitude := ChangeAttitude.support }

theorem burnout_tick_actor_update_witness :
    (tickBurnout exSchool (fun _ => 0)).1.actors =
      exSchool.actors.map
        (burnoutStep (tickBurnout exSchool (fun _ => 0)).1.burnout_index) ∧
    (exTeacher.burned_out = false ∧
        (tickBurnout exSchool (fun _ => 0)).1.burnout_index >
          0.5 + (0.5 - exTeacher.adaptability) →
      burnoutStep (tickBurnout exSchool (fun _ => 0)).1.burnout_index exTeacher =
        (if exTeacher.adaptability > 0.6 then
          { exTeacher with burned_out := true, has_left_system := true,
                           opportunity_choice := OpportunityChoice.leave_outside,
                           opportunity_cost := exTeacher.opportunity_cost + 1 }
        else
          { exTeacher with burned_out := true,
                           opportunity_choice := OpportunityChoice.stay_inside,
                           opportunity_cost := exTeacher.opportunity_cost + 0.7 })) ∧
    (¬(exTeacher.burned_out = false ∧
        (tickBurnout exSchool (fun _ => 0)).1.burnout_index >
          0.5 + (0.5 - exTeacher.adaptability)) →
      burnoutStep (tickBurnout exSchool (fun _ => 0)).1.burnout_index exTeacher =
        exTeacher) :=
  burnout_tick_actor_update exSchool (fun _ => 0) exTeacher (Or.inl rfl) rfl

/-- Flag monotonicity between an actor before and after a step: a set
burned_out flag stays set, and a set has_left_system flag stays set. -/
def FlagMono (a b : Actor) : Prop :=
  (a.burned_out = true → b.burned_out = true) ∧
  (a.has_left_system = true → b.has_left_system = true)

theorem flagMono_refl (a : Actor) : FlagMono a a := ⟨id, id⟩

theorem forall₂_flagMono_self (l : List Actor) : List.Forall₂ FlagMono l l :=
  List.forall₂_same.mpr (fun a _ => flagMono_refl a)

theorem forall₂_map_self (f : Actor → Actor) (h : ∀ a, FlagMono a (f a)) :
    ∀ l : List Actor, List.Forall₂ FlagMono l (l.map f)
  | [] => List.Forall₂.nil
  | a :: l => List.Forall₂.cons (h a) (forall₂_map_self f h l)

theorem forall₂_flagMono_trans {l1 l2 l3 : List Actor}
    (h12 : List.Forall₂ FlagMono l1 l2) (h23 : List.Forall₂ FlagMono l2 l3) :
    List.Forall₂ FlagMono l1 l3 := by
  induction h12 generalizing l3 with
  | nil => cases h23; exact List.Forall₂.nil
  | cons hab t ih =>
    cases h23 with
    | cons hbc t23 =>
      exact List.Forall₂.cons ⟨fun h => hbc.1 (hab.1 h), fun h => hbc.2 (hab.2 h)⟩ (ih t23)

theorem burnoutStep_flagMono (B : ℚ) (a : Actor) : FlagMono a (burnoutStep B a) := by
  unfold FlagMono burnoutStep
  repeat' split
  all_goals simp_all

theorem studentNudge_flagMono (sup : ℚ) (a : Actor) :
    FlagMono a (if a.role = Role.student then
      { a with adaptability := max 0 (a.adaptability - 0.01 * sup) } else a) := by
  split <;> exact ⟨id, id⟩

theorem tickChangeDynamics_flags (s : School) {l : List Actor} (hl : l = s.actors) :
    List.Forall₂ FlagMono l (tickChangeDynamics s).actors := by
  subst hl
  simp only [tickChangeDynamics]
  split
  · exact forall₂_flagMono_self _
  · simp only []
    split
    · exact forall₂_map_self _ (studentNudge_flagMono _) _
    · exact forall₂_flagMono_self _

theorem Burn_actors_eq (s : School) (d : DrawS) :
    (tickBurnout s d).1.actors =
      s.actors.map (burnoutStep (tickBurnout s d).1.burnout_index) := rfl

theorem simulateYear_flags_mono (s : School) (d : DrawS) :
    List.Forall₂ FlagMono s.actors (simulateYear s d).1.actors := by
  simp only [simulateYear, Prod_frame_actors, Stud_frame_actors, Burn_actors_eq,
    Trust_frame_actors, Ext_frame_actors, Innov_frame_actors, Edu_frame_actors,
    Pm_frame_actors, Portal_frame_actors, Strat_frame_actors, Dx_frame_actors,
    Infra_frame_actors]
  refine forall₂_flagMono_trans ?_ (forall₂_map_self _ (burnoutStep_flagMono _) _)
  exact tickChangeDynamics_flags _ rfl

/-- C5: along any run, for every actor, burned_out and has_left_system
are one-way: if set before a simulate_year call they are still set after
it; no tick of the year resets either flag. -/
theorem flags_one_way (s : School) (d : DrawS) (n : ℕ) :
    List.Forall₂ FlagMono (simulateYears n s d).1.actors
      (simulateYears (n + 1) s d).1.actors := by
  induction n generalizing s d with
  | zero => exact simulateYear_flags_mono s d
  | succ m ih => exact ih _ _

/-- Logistic transform 1 / (1 + exp(-x)) of the future-hope estimator. -/
noncomputable def sigmoidR (x : ℝ) : ℝ := 1 / (1 + Real.exp (-x))

/-- Real-valued unit clamp max(0.0, min(1.0, p)). -/
def clampR01 (x : ℝ) : ℝ := max 0 (min 1 x)

/-- Core of student_future_hope_probability: the probability as a
function of the signed adaptability margin delta and the (already
clamped) environment score, via logit (-2.5 + 3*env_score) + 5*delta. -/
noncomputable def hopeFromParts (delta env_score : ℝ) : ℝ :=
  clampR01 (sigmoidR ((-2.5 + 3 * env_score) + 5 * delta))

/-- student_future_hope_probability from the source: delta is
base_effective_adaptability(actor) - required_threshold(), the
environment score is the mean of (1 - suppression_level), dx_clarity,
student_learning_efficiency and ai_accessibility_index clamped to the
unit interval, and the result is the clamped logistic transform. -/
noncomputable def student_future_hope_probability
    (school : School) (world : ExternalWorld) (a : Actor) : ℝ :=
  hopeFromParts ((base_effective_adaptability a - required_threshold world : ℚ) : ℝ)
    ((clamp01 (((1 - school.suppression_level) + school.dx_clarity
        + school.student_learning_efficiency + school.ai_accessibility_index) / 4) : ℚ) : ℝ)

theorem clampR01_nonneg (x : ℝ) : 0 ≤ clampR01 x := le_max_left 0 _

theorem clampR01_le_one (x : ℝ) : clampR01 x ≤ 1 :=
  max_le (by norm_num) (min_le_left 1 x)

theorem clampR01_mono {x y : ℝ} (h : x ≤ y) : clampR01 x ≤ clampR01 y :=
  max_le_max le_rfl (min_le_min le_rfl h)

theorem sigmoidR_mono {x y : ℝ} (h : x ≤ y) : sigmoidR x ≤ sigmoidR y := by
  unfold sigmoidR
  have h1 : (0 : ℝ) < 1 + Real.exp (-y) := by positivity
  have h2 : 1 + Real.exp (-y) ≤ 1 + Real.exp (-x) := by
    have := Real.exp_le_exp.mpr (neg_le_neg h)
    linarith
  exact one_div_le_one_div_of_le h1 h2

/-- C6: student_future_hope_probability always returns a value in the
unit interval, and the underlying probability function is monotonically
non-decreasing in the environment score for fixed delta, and
monotonically non-decreasing in delta for a fixed environment score. -/
theorem future_hope_probability_props :
    (∀ (school : School) (world : ExternalWorld) (a : Actor),
      0 ≤ student_future_hope_probability school world a ∧
        student_future_hope_probability school world a ≤ 1) ∧
    (∀ delta e1 e2 : ℝ, e1 ≤ e2 →
      hopeFromParts delta e1 ≤ hopeFromParts delta e2) ∧
    (∀ env d1 d2 : ℝ, d1 ≤ d2 →
      hopeFromParts d1 env ≤ hopeFromParts d2 env) := by
  refine ⟨fun school world a => ⟨clampR01_nonneg _, clampR01_le_one _⟩, ?_, ?_⟩
  · intro delta e1 e2 h
    exact clampR01_mono (sigmoidR_mono (by linarith))
  · intro env d1 d2 h
    exact clampR01_mono (sigmoidR_mono (by linarith))

theorem future_hope_probability_props_witness :
    (0 ≤ student_future_hope_probability exSchool {} exTeacher ∧
      student_future_hope_probability exSchool {} exTeacher ≤ 1) ∧
    hopeFromParts 0 0 ≤ hopeFromParts 0 1 ∧
    hopeFromParts 0 0 ≤ hopeFromParts 1 0 :=
  ⟨future_hope_probability_props.1 exSchool {} exTeacher,
   future_hope_probability_props.2.1 0 0 1 (by norm_num),
   future_hope_probability_props.2.2 0 0 1 (by norm_num)⟩

theorem noiseQ_zero {s : School} (scale : ℚ) (d : DrawS) (h : s.randomness = 0) :
    noiseQ s scale d = (0, d) := by
  unfold noiseQ
  rw [if_pos (Or.inl (le_of_eq h))]

theorem simulateYear_randomness (s : School) (d : DrawS) :
    (simulateYear s d).1.randomness = s.randomness := by
  simp only [simulateYear, Prod_frame_randomness, Stud_frame_randomness,
    Burn_frame_randomness, Trust_frame_randomness, Ext_frame_randomness,
    Innov_frame_randomness, Edu_frame_randomness, Change_frame_randomness,
    Pm_frame_randomness, Portal_frame_randomness, Strat_frame_randomness,
    Dx_frame_randomness, Infra_frame_randomness]

/-- Stream-determinism of a stepping function: with randomness zero the
resulting state ignores the draw stream and no draw is consumed, and the
randomness dial itself is never written. -/
def DetStep (F : School → DrawS → School × DrawS) : Prop :=
  (∀ (s : School) (d d2 : DrawS), s.randomness = 0 → (F s d).1 = (F s d2).1) ∧
  (∀ (s : School) (d : DrawS), s.randomness = 0 → (F s d).2 = d) ∧
  (∀ (s : School) (d : DrawS), (F s d).1.randomness = s.randomness)

/-- Sequencing of two stepping functions, threading state and stream. -/
def stepComp (F G : School → DrawS → School × DrawS) : School → DrawS → School × DrawS :=
  fun s d => G (F s d).1 (F s d).2

/-- Lift of a draw-free tick to a stepping function. -/
def liftPure (g : School → School) : School → DrawS → School × DrawS :=
  fun s d => (g s, d)

theorem detStep_comp {F G : School → DrawS → School × DrawS}
    (hF : DetStep F) (hG : DetStep G) : DetStep (stepComp F G) := by
  refine ⟨?_, ?_, ?_⟩
  · intro s d d2 h
    have hr : (F s d).1.randomness = 0 := (hF.2.2 s d).trans h
    calc (G (F s d).1 (F s d).2).1 = (G (F s d).1 (F s d2).2).1 := hG.1 _ _ _ hr
      _ = (G (F s d2).1 (F s d2).2).1 := by rw [hF.1 s d d2 h]
  · intro s d h
    have hr : (F s d).1.randomness = 0 := (hF.2.2 s d).trans h
    calc (G (F s d).1 (F s d).2).2 = (F s d).2 := hG.2.1 _ _ hr
      _ = d := hF.2.1 s d h
  · intro s d
    exact (hG.2.2 _ _).trans (hF.2.2 s d)

theorem detStep_liftPure (g : School → School)
    (hg : ∀ s, (g s).randomness = s.randomness) : DetStep (liftPure g) :=
  ⟨fun _ _ _ _ => rfl, fun _ _ _ => rfl, fun s _ => hg s⟩

theorem detStep_tickInfrastructure : DetStep tickInfrastructure := by
  refine ⟨?_, ?_, fun s d => rfl⟩
  · intro s d d2 h
    simp only [tickInfrastructure, noiseQ_zero _ _ h]
  · intro s d h
    simp only [tickInfrastructure, noiseQ_zero _ _ h]

theorem detStep_tickDxClarity : DetStep tickDxClarity := by
  refine ⟨?_, ?_, fun s d => rfl⟩
  · intro s d d2 h
    simp only [tickDxClarity, noiseQ_zero _ _ h]
  · intro s d h
    simp only [tickDxClarity, noiseQ_zero _ _ h]

theorem detStep_tickPortalAndDb : DetStep tickPortalAndDb := by
  refine ⟨?_, ?_, fun s d => rfl⟩
  · intro s d d2 h
    simp only [tickPortalAndDb, noiseQ_zero _ _ h, ite_self]
  · intro s d h
    simp only [tickPortalAndDb, noiseQ_zero _ _ h, ite_self]

theorem detStep_tickBurnout : DetStep tickBurnout := by
  refine ⟨?_, ?_, fun s d => rfl⟩
  · intro s d d2 h
    simp only [tickBurnout, noiseQ_zero _ _ h]
  · intro s d h
    simp only [tickBurnout, noiseQ_zero _ _ h]

theorem detStep_tickStudents : DetStep tickStudents := by
  refine ⟨?_, ?_, fun s d => rfl⟩
  · intro s d d2 h
    simp only [tickStudents, noiseQ_zero _ _ h]
  · intro s d h
    simp only [tickStudents, noiseQ_zero _ _ h]

theorem detStep_tickProductivityAndEfficiency : DetStep tickProductivityAndEfficiency := by
  refine ⟨?_, ?_, fun s d => rfl⟩
  · intro s d d2 h
    simp only [tickProductivityAndEfficiency, noiseQ_zero _ _ h]
  · intro s d h
    simp only [tickProductivityAndEfficiency, noiseQ_zero _ _ h]

/-- simulate_year is definitionally the sequential composition of the
year-counter increment and the thirteen ticks. -/
theorem simulateYear_eq_comp :
    simulateYear =
      stepComp (liftPure fun s => { s with years_simulated := s.years_simulated + 1 })
        (stepComp tickInfrastructure (stepComp tickDxClarity
          (stepComp (liftPure tickStrategyLayer) (stepComp tickPortalAndDb
            (stepComp (liftPure tickPmAndDesign) (stepComp (liftPure tickChangeDynamics)
              (stepComp (liftPure tickEducationAssets) (stepComp (liftPure tickInnovation)
                (stepComp (liftPure tickExternalSystems)
                  (stepComp (liftPure tickTrustAndTransparency)
                    (stepComp tickBurnout (stepComp tickStudents
                      tickProductivityAndEfficiency)))))))))))) := by
  funext s d
  simp only [simulateYear, stepComp, liftPure]

theorem detStep_simulateYear : DetStep simulateYear := by
  rw [simulateYear_eq_comp]
  exact detStep_comp (detStep_liftPure _ fun s => rfl)
    (detStep_comp detStep_tickInfrastructure
      (detStep_comp detStep_tickDxClarity
        (detStep_comp (detStep_liftPure _ Strat_frame_randomness)
          (detStep_comp detStep_tickPortalAndDb
            (detStep_comp (detStep_liftPure _ Pm_frame_randomness)
              (detStep_comp (detStep_liftPure _ Change_frame_randomness)
                (detStep_comp (detStep_liftPure _ Edu_frame_randomness)
                  (detStep_comp (detStep_liftPure _ Innov_frame_randomness)
                    (detStep_comp (detStep_liftPure _ Ext_frame_randomness)
                      (detStep_comp (detStep_liftPure _ Trust_frame_randomness)
                        (detStep_comp detStep_tickBurnout
                          (detStep_comp detStep_tickStudents
                            detStep_tickProductivityAndEfficiency))))))))))))

theorem simulateYears_det (n : ℕ) (s : School) (d d2 : DrawS) (h : s.randomness = 0) :
    (simulateYears n s d).1 = (simulateYears n s d2).1 := by
  induction n generalizing s d d2 with
  | zero => rfl
  | succ m ih =>
    show (simulateYears m (simulateYear s d).1 (simulateYear s d).2).1 =
      (simulateYears m (simulateYear s d2).1 (simulateYear s d2).2).1
    rw [detStep_simulateYear.1 s d d2 h, detStep_simulateYear.2.1 s d h,
      detStep_simulateYear.2.1 s d2 h]
    exact ih _ _ _ ((detStep_simulateYear.2.2 s d2).trans h)

/-- C7: with randomness = 0 no noise draw influences any tick, so two
runs from the same state performing the same number of simulate_year
calls end in the same state whatever the two draw streams supply; the
reintegration noise and the future-hope coin flip live only in the
reporting functions, which simulate_year never invokes. -/
theorem simulate_year_deterministic (s : School) (n : ℕ) (d d2 : DrawS)
    (h : s.randomness = 0) :
    (simulateYears n s d).1 = (simulateYears n s d2).1 :=
  simulateYears_det n s d d2 h

theorem simulate_year_deterministic_witness :
    (simulateYears 2 { exSchool with randomness := 0 } (fun _ => 1)).1 =
      (simulateYears 2 { exSchool with randomness := 0 } (fun _ => 1 / 2)).1 :=
  simulate_year_deterministic { exSchool with randomness := 0 } 2 _ _ rfl

theorem tickChangeDynamics_suppression_branch (s : School)
    (hseeds : (s.actors.filter isHighAdapter).length ≠ 0)
    (hsup : s.suppression_level > 0.5) :
    (tickChangeDynamics s).change_seeds_planted =
      s.change_seeds_planted + (s.actors.filter isHighAdapter).length ∧
    (tickChangeDynamics s).change_seeds_suppressed =
      s.change_seeds_suppressed + (s.actors.filter isHighAdapter).length ∧
    (tickChangeDynamics s).systemic_opportunity_cost =
      s.systemic_opportunity_cost +
        ((s.actors.filter isHighAdapter).length : ℚ) * 0.4 * s.suppression_level := by
  simp only [tickChangeDynamics, if_neg hseeds]
  refine ⟨?_, ?_, ?_⟩ <;> first | trivial | rw [if_pos hsup]

theorem Strat_soc_mono (s : School) :
    s.systemic_opportunity_cost ≤ (tickStrategyLayer s).systemic_opportunity_cost := by
  simp only [tickStrategyLayer]
  split
  · linarith
  · exact le_rfl

theorem highAdapter_seeds_pos (l : List Actor) (a : Actor) (ha : a ∈ l)
    (hrole : a.role = Role.teacher ∨ a.role = Role.admin)
    (hadapt : (0.7 : ℚ) ≤ a.adaptability) :
    (l.filter isHighAdapter).length ≠ 0 := by
  have hmem : a ∈ l.filter isHighAdapter :=
    List.mem_filter.mpr ⟨ha, by simp [isHighAdapter, hrole, hadapt]⟩
  intro h0
  rw [List.length_eq_zero] at h0
  rw [h0] at hmem
  exact absurd hmem (List.not_mem_nil a)

theorem change_branch_tail (t : School) (socLB : ℚ)
    (hsup : t.suppression_level = 0.9)
    (hcnt : t.change_seeds_planted ≤ t.change_seeds_suppressed)
    (hseeds : (t.actors.filter isHighAdapter).length ≠ 0)
    (hsoc : socLB ≤ t.systemic_opportunity_cost) :
    (tickChangeDynamics t).change_seeds_planted ≤
      (tickChangeDynamics t).change_seeds_suppressed ∧
    socLB < (tickChangeDynamics t).systemic_opportunity_cost := by
  obtain ⟨hp, hs, hsoc2⟩ :=
    tickChangeDynamics_suppression_branch t hseeds (by rw [hsup]; norm_num)
  constructor
  · rw [hp, hs]; omega
  · rw [hsoc2, hsup]
    have h1 : (1 : ℚ) ≤ ((t.actors.filter isHighAdapter).length : ℚ) := by
      exact_mod_cast Nat.one_le_iff_ne_zero.mpr hseeds
    nlinarith

/-- C8: starting from a state with suppression_level = 0.9, at least as
many seeds suppressed as planted, and at least one teacher/admin actor
with adaptability at least 0.7, a single simulate_year call keeps
change_seeds_suppressed at least change_seeds_planted and strictly
increases systemic_opportunity_cost. -/
theorem suppression_branch_scenario (s : School) (d : DrawS)
    (hsup : s.suppression_level = 0.9)
    (hcnt : s.change_seeds_planted ≤ s.change_seeds_suppressed)
    (a : Actor) (ha : a ∈ s.actors)
    (hrole : a.role = Role.teacher ∨ a.role = Role.admin)
    (hadapt : (0.7 : ℚ) ≤ a.adaptability) :
    (simulateYear s d).1.change_seeds_planted ≤
      (simulateYear s d).1.change_seeds_suppressed ∧
    s.systemic_opportunity_cost < (simulateYear s d).1.systemic_opportunity_cost := by
  simp only [simulateYear,
    Prod_frame_change_seeds_planted, Stud_frame_change_seeds_planted,
    Burn_frame_change_seeds_planted, Trust_frame_change_seeds_planted,
    Ext_frame_change_seeds_planted, Innov_frame_change_seeds_planted,
    Edu_frame_change_seeds_planted,
    Prod_frame_change_seeds_suppressed, Stud_frame_change_seeds_suppressed,
    Burn_frame_change_seeds_suppressed, Trust_frame_change_seeds_suppressed,
    Ext_frame_change_seeds_suppressed, Innov_frame_change_seeds_suppressed,
    Edu_frame_change_seeds_suppressed,
    Prod_frame_systemic_opportunity_cost, Stud_frame_systemic_opportunity_cost,
    Burn_frame_systemic_opportunity_cost, Trust_frame_systemic_opportunity_cost,
    Ext_frame_systemic_opportunity_cost, Innov_frame_systemic_opportunity_cost,
    Edu_frame_systemic_opportunity_cost]
  apply change_branch_tail
  · simp only [Pm_frame_suppression_level, Portal_frame_suppression_level,
      Strat_frame_suppression_level, Dx_frame_suppression_level,
      Infra_frame_suppression_level]
    exact hsup
  · simp only [Pm_frame_change_seeds_planted, Portal_frame_change_seeds_planted,
      Strat_frame_change_seeds_planted, Dx_frame_change_seeds_planted,
      Infra_frame_change_seeds_planted,
      Pm_frame_change_seeds_suppressed, Portal_frame_change_seeds_suppressed,
      Strat_frame_change_seeds_suppressed, Dx_frame_change_seeds_suppressed,
      Infra_frame_change_seeds_suppressed]
    exact hcnt
  · simp only [Pm_frame_actors, Portal_frame_actors, Strat_frame_actors,
      Dx_frame_actors, Infra_frame_actors]
    exact highAdapter_seeds_pos s.actors a ha hrole hadapt
  · simp only [Pm_frame_systemic_opportunity_cost, Portal_frame_systemic_opportunity_cost]
    refine le_trans ?_ (Strat_soc_mono _)
    simp only [Dx_frame_systemic_opportunity_cost, Infra_frame_systemic_opportunity_cost]
    exact le_rfl

/-- Concrete suppression-branch state: default fields, suppression at
0.9, one high-adaptability teacher. -/
def exSchoolSup : School :=
  { name := "S", env := {}, suppression_level := 0.9, actors := [exTeacher] }

theorem suppression_branch_scenario_witness :
    (simulateYear exSchoolSup (fun _ => 0)).1.change_seeds_planted ≤
      (simulateYear exSchoolSup (fun _ => 0)).1.change_seeds_suppressed ∧
    exSchoolSup.systemic_opportunity_cost <
      (simulateYear exSchoolSup (fun _ => 0)).1.systemic_opportunity_cost :=
  suppression_branch_scenario exSchoolSup (fun _ => 0) rfl (le_refl 0) exTeacher
    (List.mem_singleton.mpr rfl) (Or.inl rfl) (by norm_num [exTeacher])

open Classical in
/-- Student section of print_reintegration_report: each student of the
roster, in order, receives a future-hope probability and a coin flip
(the i-th draw of the reporting stream against the i-th student's
probability); the future-hope ratio is the flagged count over the
student count when there are students, and 0.0 otherwise, exactly the
guarded division of the source. -/
noncomputable def future_hope_ratio (school : School) (world : ExternalWorld)
    (flips : ℕ → ℝ) : ℝ :=
  let students := school.actors.filter (fun a => a.role = Role.student)
  let total := students.length
  let fh := (students.enum.filter (fun p =>
      flips p.1 < student_future_hope_probability school world p.2)).length
  if total > 0 then (fh : ℝ) / (total : ℝ) else 0

/-- C9: with an empty student population the future-hope ratio of the
reporting phase is 0.0 (the division is guarded by the population
count), rather than a division-by-zero failure. -/
theorem future_hope_ratio_empty (school : School) (world : ExternalWorld)
    (flips : ℕ → ℝ) (h : ∀ a ∈ school.actors, a.role ≠ Role.student) :
    future_hope_ratio school world flips = 0 := by
  have hfil : school.actors.filter (fun a => a.role = Role.student) = [] := by
    rw [List.filter_eq_nil_iff]
    intro a ha
    simp only [decide_eq_true_eq]
    exact h a ha
  simp only [future_hope_ratio, hfil, List.length_nil]
  norm_num

theorem future_hope_ratio_empty_witness :
    future_hope_ratio exSchool {} (fun _ => 0) = 0 :=
  future_hope_ratio_empty exSchool {} (fun _ => 0)
    (by intro a ha; exact absurd ha (List.not_mem_nil a))

/-- C10: when no teacher or admin actor has adaptability of at least
0.7 there are no seeds, and the change-seed tick returns the state
completely unchanged: counters, opportunity cost, burnout, dx_clarity,
infrastructure and every actor are untouched, so the low-suppression
improvement branch of this tick can only run when a high adapter
exists. -/
theorem change_tick_noop_without_high_adapters (s : School)
    (h : ∀ a ∈ s.actors, a.role = Role.teacher ∨ a.role = Role.admin →
      a.adaptability < 0.7) :
    tickChangeDynamics s = s := by
  have hfil : s.actors.filter isHighAdapter = [] := by
    rw [List.filter_eq_nil_iff]
    intro a ha
    simp only [isHighAdapter, decide_eq_true_eq, not_and, not_le]
    exact h a ha
  simp only [tickChangeDynamics, hfil, List.length_nil]
  rfl

/-- Low-adaptability legacy admin, as in the demo scenario. -/
def exAdmin : Actor :=
  { name := "LegacyDXChief", role := Role.admin,
    os_version := "LegacyOS-1995", adaptability := 0.3 }

theorem change_tick_noop_without_high_adapters_witness :
    tickChangeDynamics { exSchool with actors := [exAdmin] } =
      { exSchool with actors := [exAdmin] } :=
  change_tick_noop_without_high_adapters { exSchool with actors := [exAdmin] }
    (by
      intro a ha hrole
      rw [List.mem_singleton] at ha
      subst ha
      norm_num [exAdmin])
